import Mathlib

/-!
A verification development for the sports-betting assistant repository
(`src/utils/espnScraper.ts`, `src/utils/eliza.ts`).

The TypeScript code is shallowly embedded: every definition below is a
direct translation of the corresponding source function.  JavaScript
strings are modelled as Lean `String`s, but all manipulation is done on
the underlying `List Char` with structural-recursive helpers so that the
definitions evaluate inside the kernel.  Timestamps (`Date.now()`) are
natural numbers of milliseconds.  The external `fetch` calls are
modelled by an oracle (`FetchOutcome`) passed to the operation: one
outcome per attempted fetch.  `JSON` payloads are modelled by the fields
the code reads (`error`, `games` / `stats`).  `Array.prototype.sort`
(stable since ES2019) is modelled by the stable `List.insertionSort`.
-/

namespace DG

/-! ## Character and string helpers (JS primitive semantics) -/

/-- JS `String.prototype.includes` on char lists: `pat` occurs as a
contiguous infix of the list. -/
def infixAux (pat : List Char) : List Char → Bool
  | [] => pat.isEmpty
  | c :: rest => pat.isPrefixOf (c :: rest) || infixAux pat rest

/-- JS `haystack.includes(pat)`. -/
def containsSub (haystack pat : String) : Bool :=
  infixAux pat.data haystack.data

/-- JS `String.prototype.toLowerCase` (ASCII, which is all the code uses). -/
def lowerStr (s : String) : String :=
  String.mk (s.data.map Char.toLower)

/-- JS `String.prototype.toUpperCase` (ASCII). -/
def upperStr (s : String) : String :=
  String.mk (s.data.map Char.toUpper)

/-- JS whitespace test (`\s`, ASCII part; the inputs involved contain no
exotic Unicode spaces). -/
def isWsChar (c : Char) : Bool :=
  c == ' ' || c == '\t' || c == '\n' || c == '\r' || c == '\x0b' || c == '\x0c'

/-- JS `String.prototype.trim`. -/
def trimChars (l : List Char) : List Char :=
  ((l.dropWhile isWsChar).reverse.dropWhile isWsChar).reverse

/-- JS `String.prototype.split` with a one-character separator. -/
def splitChar (sep : Char) : List Char → List (List Char)
  | [] => [[]]
  | c :: rest =>
    match splitChar sep rest with
    | [] => [[]]
    | h :: t => if c == sep then [] :: h :: t else (c :: h) :: t

/-- Decimal digit-string value (`none` when empty or a non-digit occurs).
Together with `Option.getD 0` this models JS `Number(...)` on the digit
strings the time parser feeds it (JS `Number("") = 0`; `NaN` inputs do
not arise from the spec's `"H:MM AM/PM"` shapes). -/
def digitsToNat : List Char → Option Nat
  | [] => none
  | l => l.foldl (fun acc c => match acc with
      | none => none
      | some n => if c.isDigit then some (n * 10 + (c.toNat - 48)) else none)
      (some 0)

/-! ## Data model (`espnScraper.ts` interfaces) -/

/-- `GameData` from `espnScraper.ts`: sport tag, the two team names,
optional scheduled-time string and optional odds string. -/
structure GameData where
  sport : String
  teams : List String
  time : Option String
  odds : Option String
deriving DecidableEq, Repr

/-- A stat value in a `PlayerStats.stats` record: JSON `string | number`.
Numbers are modelled as rationals (JSON numerals are decimal literals). -/
inductive StatVal where
  | str (s : String)
  | num (q : ℚ)
deriving DecidableEq, Repr

/-- `PlayerStats` from `espnScraper.ts`; the `stats` object is a
key-value list in JS insertion order. -/
structure PlayerStats where
  name : String
  team : String
  position : Option String
  stats : List (String × StatVal)
deriving DecidableEq, Repr

/-- The scraper's in-memory singleton cache: one flat list of games for
all sports and a single `lastUpdated` timestamp. -/
structure Cache where
  data : List GameData
  lastUpdated : Nat
deriving DecidableEq, Repr

/-! ## Team-name normalization (the dedup step of `getGames`) -/

/-- The multi-word city prefixes stripped by the first
`replace(/^(los angeles|...)/, '')` (list order = alternation order;
no alternative is a prefix of another, so first-match is unambiguous). -/
def cityPrefixes : List String :=
  ["los angeles", "new york", "golden state", "oklahoma city", "tampa bay",
   "green bay", "new england", "new orleans", "san francisco", "san diego",
   "san antonio", "kansas city"]

/-- The short abbreviations stripped by `replace(/^(la|ny|...)/, '')`. -/
def shortPrefixes : List String :=
  ["la", "ny", "gs", "okc", "tb", "gb", "ne", "no", "sf", "sd", "sa", "kc"]

/-- The suffixes stripped by `replace(/(united|fc|city|town)$/, '')`
(none is a suffix of another, so at most one can match). -/
def teamSuffixes : List String := ["united", "fc", "city", "town"]

/-- JS `s.replace(/^(alts)/, '')`: drop the first listed alternative that
is a prefix of `s`, if any. -/
def stripPrefixAlt (alts : List String) (l : List Char) : List Char :=
  match alts.find? (fun p => p.data.isPrefixOf l) with
  | some p => l.drop p.data.length
  | none => l

/-- JS `s.replace(/(alts)$/, '')`: drop the listed alternative that is a
suffix of `s`, if any. -/
def stripSuffixAlt (alts : List String) (l : List Char) : List Char :=
  match alts.find? (fun p => p.data.isSuffixOf l) with
  | some p => l.take (l.length - p.data.length)
  | none => l

/-- `[^a-z]` class complement used by `replace(/[^a-z]/g, '')`. -/
def isLowerAlpha (c : Char) : Bool := 'a' ≤ c && c ≤ 'z'

/-- The team-name normalizer inlined in `getGames`'s dedup filter:
lowercase, strip a city prefix, strip a short abbreviation prefix, strip
a suffix, remove every non-letter, trim (a no-op after the letter
filter, kept for fidelity). -/
def normalizeTeam (team : String) : String :=
  let l := team.data.map Char.toLower
  let l := stripPrefixAlt cityPrefixes l
  let l := stripPrefixAlt shortPrefixes l
  let l := stripSuffixAlt teamSuffixes l
  let l := l.filter isLowerAlpha
  String.mk (trimChars l)

/-- The normalized team-name set of a record, as a JS `Set` (first
occurrences kept, realized by `List.dedup`; only size and membership are
ever consulted). -/
def teamSetList (g : GameData) : List String :=
  (g.teams.map normalizeTeam).dedup

/-- The dedup filter's equality check on two records: the normalized
sets have the same size and every member of the first is in the second. -/
def sameTeams (cur other : GameData) : Bool :=
  let x := teamSetList cur
  let y := teamSetList other
  x.length == y.length && x.all (fun t => decide (t ∈ y))

/-- The dedup pass of `getGames`'s pipeline:
`filter((game, index, self) => index === self.findIndex(g => sameTeams(game, g)))`. -/
def dedupGames (l : List GameData) : List GameData :=
  (l.enum.filter (fun p => l.findIdx (fun g => sameTeams p.2 g) == p.1)).map Prod.snd

/-! ## Time parsing and sorting (the sort step of `getGames`) -/

/-- `convertTimeToMinutes` from `getGames`'s sort comparator: split at
the blank into time and period, split the time at `:`, minutes since
midnight with the PM/AM-12 adjustments. -/
def convertTimeToMinutes (s : String) : Int :=
  let parts := splitChar ' ' s.data
  let timePart := parts.getD 0 []
  let period := parts.getD 1 []
  let hm := splitChar ':' timePart
  let hours : Int := ((digitsToNat (hm.getD 0 [])).getD 0 : Nat)
  let minutes : Int := ((digitsToNat (hm.getD 1 [])).getD 0 : Nat)
  let total := hours * 60 + minutes
  let total := if period == "PM".data && hours != 12 then total + 12 * 60 else total
  let total := if period == "AM".data && hours == 12 then total - 12 * 60 else total
  total

/-- The comparator key: `convertTimeToMinutes(game.time || '99:99 PM')`
(JS `||`: a missing or empty time string falls back to `"99:99 PM"`). -/
def sortKey (g : GameData) : Int :=
  convertTimeToMinutes (match g.time with
    | some t => if t == "" then "99:99 PM" else t
    | none => "99:99 PM")

/-- The sort pass: JS `Array.prototype.sort` with the numeric comparator
`convertTimeToMinutes(a) - convertTimeToMinutes(b)` — a stable ascending
sort by `sortKey`, modelled by the stable `List.insertionSort`. -/
def sortGames (l : List GameData) : List GameData :=
  List.insertionSort (fun a b => sortKey a ≤ sortKey b) l

/-- The time filter pass: keep games whose `time` contains a `:`
(`game.time?.includes(':')`; a missing time is falsy). -/
def filterTimed (l : List GameData) : List GameData :=
  l.filter (fun g => match g.time with
    | some t => t.data.contains ':'
    | none => false)

/-- The whole post-processing pipeline of `getGames`:
filter, dedup, sort, in the source's order. -/
def postProcess (l : List GameData) : List GameData :=
  sortGames (dedupGames (filterTimed l))

/-! ## The fetch boundary

One `fetch('/api/espn?...')` round-trip, as the code observes it:
the promise rejects, or the response is not `ok`, or a JSON payload
arrives carrying an optional `error` field and an optional
`games` / `stats` array. -/

/-- Outcome of one fetch attempt against the API route. -/
inductive FetchOutcome (α : Type) where
  | fetchError (msg : String)
  | notOk (status : Nat) (statusText : String)
  | payload (error : Option String) (body : Option (List α))
deriving DecidableEq

/-- JS truthiness of the payload's `error` field (`if (data.error)`):
absent or the empty string is falsy. -/
def errTruthy : Option String → Bool
  | some e => e ≠ ""
  | none => false

/-- The body of one `try` iteration of `getGames` up to `data.games || []`:
throw on rejection, on `!response.ok` and on a truthy `data.error`;
otherwise the `games` array (empty when the field is absent; a present
empty array is truthy in JS, so `|| []` only covers absence). -/
def attemptGames : FetchOutcome GameData → Except String (List GameData)
  | .fetchError m => .error m
  | .notOk status statusText =>
      .error ("Failed to fetch games: " ++ toString status ++ " " ++ statusText)
  | .payload err body =>
      if errTruthy err then
        .error (err.getD "")
      else
        .ok (body.getD [])

/-! ## `getGames` (cache check, retry loop, commit) -/

/-- `this.cache.data.filter(game => game.sport === sport)`. -/
def cachedFor (sport : String) (c : Cache) : List GameData :=
  c.data.filter (fun g => g.sport == sport)

/-- The cache commit on a non-empty post-processed result: replace the
games of this sport, keep every other sport's games, stamp `now`. -/
def commitCache (sport : String) (now : Nat) (games : List GameData) (c : Cache) : Cache :=
  { data := c.data.filter (fun g => g.sport != sport) ++ games
    lastUpdated := now }

/-- The `while (retries > 0)` loop of `getGames`.  `attempt` indexes the
oracle (one outcome per issued fetch), `retries` is the budget (initially
2).  A successful attempt post-processes, commits on non-empty, and
returns.  A failed attempt decrements the budget; with budget left it
retries (the 2000 ms delay has no observable effect in this model),
otherwise it falls back to the `cachedGames` snapshot taken before the
loop when non-empty, else re-raises the last error.  The `retries = 0`
loop exit (`return []`) is unreachable from budget 2. -/
def getGamesLoop (sport : String) (now : Nat) (c : Cache) (cachedGames : List GameData)
    (oracle : Nat → FetchOutcome GameData) :
    Nat → Nat → Except String (List GameData) × Cache
  | _, 0 => (.ok [], c)
  | attempt, r + 1 =>
    match attemptGames (oracle attempt) with
    | .ok raw =>
      let games := postProcess raw
      if games.length > 0 then
        (.ok games, commitCache sport now games c)
      else
        (.ok games, c)
    | .error e =>
      if r > 0 then
        getGamesLoop sport now c cachedGames oracle (attempt + 1) r
      else if cachedGames.length > 0 then
        (.ok cachedGames, c)
      else
        (.error e, c)

/-- `getGames(sport)`: serve the cached games of this sport when some
exist and the shared timestamp is younger than 300 000 ms, otherwise run
the fetch-with-retry loop with budget 2.  Returns the JS return value
(or the thrown error) together with the cache state after the call. -/
def getGames (sport : String) (now : Nat) (c : Cache)
    (oracle : Nat → FetchOutcome GameData) :
    Except String (List GameData) × Cache :=
  let cachedGames := cachedFor sport c
  if cachedGames.length > 0 ∧ now - c.lastUpdated < 300000 then
    (.ok cachedGames, c)
  else
    getGamesLoop sport now c cachedGames oracle 0 2

/-! ## `getTodaysGames` (fan-out over the six sports)

The `Promise.all` fan-out is modelled as a deterministic left-to-right
traversal in the declared sport order: in the single-threaded
cooperative model each fanned-out call runs to completion in issue
order, threading the shared cache. -/

/-- The fixed sport list of `getTodaysGames`. -/
def allSports : List String := ["nfl", "nba", "mlb", "nhl", "ncaaf", "ncaab"]

/-- The fan-out body: push each success onto `allGames`, each failure
onto `errors`, never letting one sport's failure block another. -/
def collectSports (now : Nat) (gso : String → Nat → FetchOutcome GameData) :
    List String → Cache → List GameData × List String × Cache
  | [], c => ([], [], c)
  | s :: rest, c =>
    match getGames s now c (gso s) with
    | (.ok games, c1) =>
      let (gs, es, c2) := collectSports now gso rest c1
      (games ++ gs, es, c2)
    | (.error e, c1) =>
      let (gs, es, c2) := collectSports now gso rest c1
      (gs, e :: es, c2)

/-- `getTodaysGames`: some games → return them; no games but errors →
throw the first error; neither → the empty list. -/
def getTodaysGames (now : Nat) (c : Cache)
    (gso : String → Nat → FetchOutcome GameData) :
    Except String (List GameData) × Cache :=
  match collectSports now gso allSports c with
  | (allGames, errors, c1) =>
    if allGames.length > 0 then (.ok allGames, c1)
    else
      match errors with
      | e :: _ => (.error e, c1)
      | [] => (.ok [], c1)

/-- The per-sport outcomes of the traversal (the `Except` value each
`getGames` call produced), used to state the aggregation contract. -/
def perSportResults (now : Nat) (gso : String → Nat → FetchOutcome GameData) :
    List String → Cache → List (Except String (List GameData))
  | [], _ => []
  | s :: rest, c =>
    let r := getGames s now c (gso s)
    r.1 :: perSportResults now gso rest r.2

/-- The successful per-sport result lists, in traversal order. -/
def okResults (rs : List (Except String (List GameData))) : List (List GameData) :=
  rs.filterMap (fun r => match r with | .ok l => some l | .error _ => none)

/-- The failure messages, in traversal order. -/
def errResults (rs : List (Except String (List GameData))) : List String :=
  rs.filterMap (fun r => match r with | .ok _ => none | .error e => some e)

/-! ## `getPlayerStats` (the stats gateway) -/

/-- `getPlayerStats(sport)`: one fetch, no retry, no cache; throw on
rejection, on `!response.ok` (with the stats message) and on a truthy
`data.error`; otherwise `data.stats || []`.  The catch only logs and
rethrows. -/
def getPlayerStats : FetchOutcome PlayerStats → Except String (List PlayerStats)
  | .fetchError m => .error m
  | .notOk status statusText =>
      .error ("Failed to fetch player stats: " ++ toString status ++ " " ++ statusText)
  | .payload err body =>
      if errTruthy err then
        .error (err.getD "")
      else
        .ok (body.getD [])

/-! ## Regex tests used by `eliza.ts`

The patterns are translated one by one.  `.` does not match the JS line
terminators `\n`, `\r`; all tests run on the already-lowercased input,
so the `/i` flags are inert. -/

/-- First `some` of `f` over a list, in order (backtracking order of the
regex engine: earlier candidates are preferred). -/
def firstSome {α β : Type} (f : α → Option β) : List α → Option β
  | [] => none
  | a :: rest =>
    match f a with
    | some b => some b
    | none => firstSome f rest

/-- Candidate consumption counts for a greedy quantifier: `n, n-1, …, 0`. -/
def descRange (n : Nat) : List Nat := (List.range (n + 1)).reverse

/-- A character the JS `.` can match (not a line terminator). -/
def notNl (c : Char) : Bool := c != '\n' && c != '\r'

/-- Test of `/pre.*(alt1|alt2|…)/` : some occurrence of `pre` is
followed, within the same line, by one of the alternatives (none of
which contains a line terminator). -/
def seqTest (pre : List Char) (alts : List String) : List Char → Bool
  | [] => false
  | c :: rest =>
    (pre.isPrefixOf (c :: rest) &&
      (let scope := ((c :: rest).drop pre.length).takeWhile notNl
       alts.any (fun a => infixAux a.data scope)))
    || seqTest pre alts rest

/-- `/what.*(averaging|stats|statistics|scoring)/i` (`playerPatterns.stats`). -/
def statsTest (s : String) : Bool :=
  seqTest "what".data ["averaging", "stats", "statistics", "scoring"] s.data

/-- `/(who|which).*(best|top|leading|highest)/i` (`playerPatterns.best`). -/
def bestTest (s : String) : Bool :=
  ["who", "which"].any (fun p =>
    seqTest p.data ["best", "top", "leading", "highest"] s.data)

/-- JS `\w` (word character). -/
def isWordChar (c : Char) : Bool :=
  ('a' ≤ c && c ≤ 'z') || ('A' ≤ c && c ≤ 'Z') || ('0' ≤ c && c ≤ '9') || c == '_'

/-- A `\b` boundary next to the outside character `o` (`none` = string edge). -/
def boundaryOk : Option Char → Bool
  | none => true
  | some c => !isWordChar c

/-- Occurrence of `alt` with `\b` on both sides, scanning with the
preceding character in hand. -/
def wordAtAux (alt : List Char) : Option Char → List Char → Bool
  | _, [] => false
  | prev, c :: rest =>
    (boundaryOk prev && alt.isPrefixOf (c :: rest) &&
      boundaryOk ((c :: rest).drop alt.length).head?)
    || wordAtAux alt (some c) rest

/-- Test of `/\b(alt1|alt2|…)\b/` : some alternative occurs
word-bounded. -/
def wordTest (alts : List String) (s : String) : Bool :=
  alts.any (fun a => wordAtAux a.data none s.data)

/-! ### The capture-group pattern `playerPatterns.specific`

`/(how.*is|what.*is|what.*are)\s+([a-z\s]+)\s+(averaging|scoring|doing|stats|statistics)/i`,
used via `.match` to extract group 2 (the player name).  The JS engine's
semantics are reproduced: leftmost start position, alternatives in
written order, greedy quantifiers with backtracking, first full match
wins. -/

/-- `[a-z\s]` (on the lowercased input the `/i` flag adds nothing). -/
def isAzOrWs (c : Char) : Bool := ('a' ≤ c && c ≤ 'z') || isWsChar c

/-- Match `\s+([a-z\s]+)\s+(averaging|scoring|doing|stats|statistics)`
at the head of `l`, returning group 2; each quantifier is greedy and
backtracks, the final alternation needs no backtracking for a test of
existence of the (unanchored) tail. -/
def specificTail (l : List Char) : Option (List Char) :=
  firstSome (fun j1 =>
    if j1 == 0 then none else
    let l1 := l.drop j1
    firstSome (fun m =>
      if m == 0 then none else
      let grp := l1.take m
      let l2 := l1.drop m
      firstSome (fun j2 =>
        if j2 == 0 then none else
        let l3 := l2.drop j2
        if ["averaging", "scoring", "doing", "stats", "statistics"].any
            (fun w => w.data.isPrefixOf l3) then
          some grp
        else none)
        (descRange ((l2.takeWhile isWsChar).length)))
      (descRange ((l1.takeWhile isAzOrWs).length)))
    (descRange ((l.takeWhile isWsChar).length))

/-- Match one first-group alternative `pre₁.*pre₂` at the head of `l`
(greedy `.`), then the tail; returns group 2. -/
def specificAlt (pre1 pre2 : String) (l : List Char) : Option (List Char) :=
  if pre1.data.isPrefixOf l then
    let l0 := l.drop pre1.data.length
    firstSome (fun k =>
      let l1 := l0.drop k
      if pre2.data.isPrefixOf l1 then specificTail (l1.drop pre2.data.length)
      else none)
      (descRange ((l0.takeWhile notNl).length))
  else none

/-- The three first-group alternatives, in written order. -/
def specificAtPos (l : List Char) : Option (List Char) :=
  match specificAlt "how" "is" l with
  | some g => some g
  | none =>
    match specificAlt "what" "is" l with
    | some g => some g
    | none => specificAlt "what" "are" l

/-- Leftmost-position scan of the whole pattern. -/
def specificScan : List Char → Option (List Char)
  | [] => none
  | c :: rest =>
    match specificAtPos (c :: rest) with
    | some g => some g
    | none => specificScan rest

/-- `lowerInput.match(playerPatterns.specific)`, reduced to the only
thing the code reads from it: group 2, or `none` when there is no match. -/
def specificMatch (s : String) : Option String :=
  (specificScan s.data).map String.mk

/-! ## Stat-value helpers (JS dynamic lookups in `eliza.ts`) -/

/-- `player.stats[key]` (absent key → `undefined`). -/
def statLookup (stats : List (String × StatVal)) (key : String) : Option StatVal :=
  (stats.find? (fun p => p.1 == key)).map Prod.snd

/-- JS truthiness of a stat value (`0` and `""` are falsy). -/
def statTruthy : StatVal → Bool
  | .str s => s ≠ ""
  | .num q => q ≠ 0

/-- Truthiness of a possibly-absent value. -/
def statTruthyOpt : Option StatVal → Bool
  | some v => statTruthy v
  | none => false

/-- `stats[k₁] || stats[k₂] || … || 'default'`: the first truthy lookup,
else the string default. -/
def statChain (stats : List (String × StatVal)) (keys : List String) (dflt : String) : StatVal :=
  match keys with
  | [] => .str dflt
  | k :: rest =>
    match statLookup stats k with
    | some v => if statTruthy v then v else statChain stats rest dflt
    | none => statChain stats rest dflt

/-- Template interpolation `${value}` of a stat value.  A numeric JSON
value is modelled as a rational and rendered by `ToString ℚ` (an integer
prints as in JS; the decimal rendering of JS floats is abstracted — no
claim under verification inspects it). -/
def statShow : StatVal → String
  | .str s => s
  | .num q => toString q

/-- `Number(x)` on a stat value or `undefined`, with `none` for `NaN`:
used only under `||` chains, so only `NaN`-ness and zero-ness matter
beyond the parsed magnitude.  `Number` of a full decimal numeral string
(optional sign, digits, optional fraction); the empty or all-blank
string is `0`; anything else is `NaN` (the exotic `Number` inputs —
hex, exponents, `Infinity` — do not occur in scraped stat values). -/
def numberOfString (s : String) : Option ℚ :=
  let l := (s.data.dropWhile isWsChar).reverse.dropWhile isWsChar |>.reverse
  match l with
  | [] => some 0
  | _ =>
    let (sign, l1) : ℚ × List Char :=
      match l with
      | '-' :: rest => (-1, rest)
      | '+' :: rest => (1, rest)
      | _ => (1, l)
    let intPart := l1.takeWhile Char.isDigit
    let l2 := l1.drop intPart.length
    let fracPart :=
      match l2 with
      | '.' :: rest => some (rest.takeWhile Char.isDigit, rest.drop (rest.takeWhile Char.isDigit).length)
      | _ => none
    let rest :=
      match fracPart with
      | some (_, r) => r
      | none => l2
    let fracDigits :=
      match fracPart with
      | some (d, _) => d
      | none => []
    if rest ≠ [] then none
    else if intPart = [] && fracDigits = [] then none
    else
      let intVal : ℚ := ((digitsToNat intPart).getD 0 : Nat)
      let fracVal : ℚ := ((digitsToNat fracDigits).getD 0 : Nat) / ((10 : ℚ) ^ fracDigits.length)
      some (sign * (intVal + fracVal))

/-- `Number(v)` for a stat value (`undefined` → `NaN`). -/
def jsNumber : Option StatVal → Option ℚ
  | none => none
  | some (.num q) => some q
  | some (.str s) => numberOfString s

/-- `Number(a) || Number(b) || … || 0`: first operand that is neither
`NaN` nor `0`, else `0`. -/
def numChain (stats : List (String × StatVal)) : List String → ℚ
  | [] => 0
  | k :: rest =>
    match jsNumber (statLookup stats k) with
    | some q => if q ≠ 0 then q else numChain stats rest
    | none => numChain stats rest

/-- JS `parseFloat`: leading whitespace, optional sign, longest decimal
prefix; `NaN` (`none`) when no digit is consumed (exponents are not
modelled — scraped batting averages are plain decimals). -/
def parseFloatQ (s : String) : Option ℚ :=
  let l := s.data.dropWhile isWsChar
  let (sign, l1) : ℚ × List Char :=
    match l with
    | '-' :: rest => (-1, rest)
    | '+' :: rest => (1, rest)
    | _ => (1, l)
  let intPart := l1.takeWhile Char.isDigit
  let l2 := l1.drop intPart.length
  let fracDigits :=
    match l2 with
    | '.' :: rest => rest.takeWhile Char.isDigit
    | _ => []
  if intPart = [] && fracDigits = [] then none
  else
    let intVal : ℚ := ((digitsToNat intPart).getD 0 : Nat)
    let fracVal : ℚ := ((digitsToNat fracDigits).getD 0 : Nat) / ((10 : ℚ) ^ fracDigits.length)
    some (sign * (intVal + fracVal))

/-! ## The Eliza response engine (`eliza.ts`)

`respond` is modelled as a function of the input text and an
environment: the clock, the scraper's cache, one fetch oracle per
operation, and the random source (injected, per the design notes).  Its
value is the returned text in `Except.ok`, or an uncaught error — the
faithful translation keeps the `try`/`catch` structure, so proving the
result is always `ok` is proving the catch blocks cover every throw
site.  The cache mutations of the single category that runs are not
observable in the returned text and are dropped at the `respond`
boundary. -/

/-- The collaborator environment of one `respond` call. -/
structure Env where
  now : Nat
  cache : Cache
  gamesOracle : String → Nat → FetchOutcome GameData
  statsOracle : String → FetchOutcome PlayerStats
  rand : Nat

/-- One line of the game list:
``​`${game.teams.flatten(' vs ')}${game.time ? ` (${game.time})` : ''}${game.odds ? ` [${game.odds}]` : ''}`​``. -/
def formatGameLine (g : GameData) : String :=
  String.intercalate " vs " g.teams
    ++ (match g.time with
        | some t => if t == "" then "" else " (" ++ t ++ ")"
        | none => "")
    ++ (match g.odds with
        | some o => if o == "" then "" else " [" ++ o ++ "]"
        | none => "")

/-- The `sportMap` of `getSportGames`, in declaration order. -/
def sportMapList : List (String × String) :=
  [("football", "nfl"), ("nfl", "nfl"), ("basketball", "nba"), ("nba", "nba"),
   ("baseball", "mlb"), ("mlb", "mlb"), ("hockey", "nhl"), ("nhl", "nhl"),
   ("college football", "ncaaf"), ("ncaa football", "ncaaf"), ("ncaaf", "ncaaf"),
   ("college basketball", "ncaab"), ("ncaa basketball", "ncaab"), ("ncaab", "ncaab")]

/-- `getSportGames`: map the sport word to a league, fetch its games via
the scraper, and render them; unknown sports and empty results become
messages, a fetch error is rethrown (`throw error` in the catch). -/
def getSportGames (sport : String) (env : Env) : Except String String :=
  let sportType := lowerStr sport
  match (sportMapList.find? (fun p => p.1 == sportType)).map Prod.snd with
  | none =>
    .ok ("I couldn't understand which sport you're asking about. Try using specific leagues like NFL, NBA, MLB, NHL, NCAAF, or NCAAB.")
  | some mappedSport =>
    match (getGames mappedSport env.now env.cache (env.gamesOracle mappedSport)).1 with
    | .error e => .error e
    | .ok games =>
      if games.length == 0 then
        .ok ("I couldn't find any " ++ upperStr mappedSport
          ++ " games scheduled for today. Try checking another sport!")
      else
        .ok (String.intercalate "\n" (games.map formatGameLine))

/-- The per-sport canned insight lines of `handleSportResponse`. -/
def insightLines : List (String × String) :=
  [("nfl", "Prime time games have been trending under lately. I'm also seeing value in player props! 🎯"),
   ("nba", "First quarter trends are strong in these matchups. Live betting has been profitable! 💰"),
   ("mlb", "Weather conditions are perfect for some totals plays. Also watching those F5 lines! ⚾"),
   ("nhl", "Puck line value is looking prime. I've analyzed all the goalie matchups! 🏒"),
   ("ncaaf", "Home dogs have been crushing it. Conference games are where the value is! 🏈"),
   ("ncaab", "Early lines have some gaps. Sharp money is moving fast on these! 🏀")]

/-- `handleSportResponse`: render the games with the sport's insight
line; the "couldn't find" / "had trouble" messages pass through
unchanged; a fetch error is caught here and becomes the trouble text. -/
def handleSportResponse (sport : String) (env : Env) : String :=
  match getSportGames sport env with
  | .error _ =>
    "Yo degen! I'm having trouble accessing the latest " ++ upperStr sport
      ++ " data right now. Try again in a moment or check out another sport! 🎯"
  | .ok games =>
    if !(containsSub games "couldn't find") && !(containsSub games "had trouble") then
      let insights := ((insightLines.find? (fun p => p.1 == sport)).map Prod.snd).getD
        "I'm seeing some great betting opportunities in these matchups! 🎯"
      "Yo degen! Here are the " ++ upperStr sport
        ++ " games you can bet on today:\n\n" ++ games ++ "\n\n" ++ insights
    else games

/-- The sequential sport-context scan of the player-stats category
(later matches override earlier ones; defaults to `nba`). -/
def detectSport (lowerInput : String) : String :=
  let sp := "nba"
  let sp := if containsSub lowerInput "nfl" || containsSub lowerInput "football" then "nfl" else sp
  let sp := if containsSub lowerInput "mlb" || containsSub lowerInput "baseball" then "mlb" else sp
  let sp := if containsSub lowerInput "nhl" || containsSub lowerInput "hockey" then "nhl" else sp
  let sp := if containsSub lowerInput "college football" || containsSub lowerInput "ncaaf" then "ncaaf" else sp
  let sp := if containsSub lowerInput "college basketball" || containsSub lowerInput "ncaab" then "ncaab" else sp
  sp

/-- `${statChain}` rendered: the ubiquitous `stats[k] || … || 'd'` display. -/
def sc (p : PlayerStats) (keys : List String) (d : String) : String :=
  statShow (statChain p.stats keys d)

/-- The NBA stat block of the named-player sub-case. -/
def nbaStatLines (p : PlayerStats) : String :=
  String.intercalate "\n"
    ["Points: " ++ sc p ["pts", "points", "avg"] "0" ++ " PPG",
     "Field Goals: " ++ sc p ["fgm", "field_goals_made", "fgm/g"] "0" ++ "/"
       ++ sc p ["fga", "field_goals_attempted", "fga/g"] "0" ++ " ("
       ++ sc p ["fg%", "field_goal_pct", "fg_pct"] "0" ++ "%)",
     "3-Pointers: " ++ sc p ["3pm", "three_points_made", "3pm/g"] "0" ++ "/"
       ++ sc p ["3pa", "three_points_attempted", "3pa/g"] "0" ++ " ("
       ++ sc p ["3p%", "three_point_pct", "3pt_pct"] "0" ++ "%)",
     "Free Throws: " ++ sc p ["ftm", "free_throws_made", "ftm/g"] "0" ++ "/"
       ++ sc p ["fta", "free_throws_attempted", "fta/g"] "0" ++ " ("
       ++ sc p ["ft%", "free_throw_pct", "ft_pct"] "0" ++ "%)",
     "Minutes: " ++ sc p ["min", "minutes", "min/g"] "0" ++ " MPG",
     "Rebounds: " ++ sc p ["reb", "rebounds", "reb/g"] "0" ++ " RPG ("
       ++ sc p ["oreb", "offensive_rebounds", "oreb/g"] "0" ++ " OFF, "
       ++ sc p ["dreb", "defensive_rebounds", "dreb/g"] "0" ++ " DEF)",
     "Assists: " ++ sc p ["ast", "assists", "ast/g"] "0" ++ " APG",
     "Steals: " ++ sc p ["stl", "steals", "stl/g"] "0" ++ " SPG",
     "Blocks: " ++ sc p ["blk", "blocks", "blk/g"] "0" ++ " BPG",
     "Turnovers: " ++ sc p ["to", "turnovers", "to/g"] "0" ++ " TPG",
     "Plus/Minus: " ++ sc p ["plus_minus", "+/-"] "0"]

/-- The NFL stat block (quarterback shape when `pass_att` is truthy). -/
def nflStatLines (p : PlayerStats) : String :=
  if statTruthyOpt (statLookup p.stats "pass_att") then
    String.intercalate "\n"
      ["Passing: " ++ sc p ["pass_yds"] "0" ++ " yards (" ++ sc p ["pass_yds_per_game"] "0" ++ " YPG)",
       "Touchdowns: " ++ sc p ["pass_td"] "0" ++ " TD (" ++ sc p ["pass_td_per_game"] "0" ++ " per game)",
       "Interceptions: " ++ sc p ["int"] "0" ++ " INT (" ++ sc p ["int_per_game"] "0" ++ " per game)",
       "Completion: " ++ sc p ["comp"] "0" ++ "/" ++ sc p ["pass_att"] "0" ++ " (" ++ sc p ["comp_pct"] "0" ++ "%)",
       "QB Rating: " ++ sc p ["rating"] "0",
       "Yards Per Attempt: " ++ sc p ["yards_per_attempt"] "0" ++ " YPA",
       "Rush Yards: " ++ sc p ["rush_yds"] "0" ++ " (" ++ sc p ["rush_yds_per_game"] "0" ++ " YPG)",
       "Rush TD: " ++ sc p ["rush_td"] "0" ++ " (" ++ sc p ["rush_td_per_game"] "0" ++ " per game)"]
  else
    String.intercalate "\n"
      ["Rushing: " ++ sc p ["rush_yds"] "0" ++ " yards (" ++ sc p ["rush_yds_per_game"] "0" ++ " YPG)",
       "Rush TD: " ++ sc p ["rush_td"] "0" ++ " (" ++ sc p ["rush_td_per_game"] "0" ++ " per game)",
       "Receiving: " ++ sc p ["rec_yds"] "0" ++ " yards (" ++ sc p ["rec_yds_per_game"] "0" ++ " YPG)",
       "Receptions: " ++ sc p ["rec"] "0" ++ " (" ++ sc p ["rec_per_game"] "0" ++ " per game)",
       "Receiving TD: " ++ sc p ["rec_td"] "0" ++ " (" ++ sc p ["rec_td_per_game"] "0" ++ " per game)",
       "Total Touchdowns: " ++ sc p ["total_td"] "0" ++ " (" ++ sc p ["td_per_game"] "0" ++ " per game)",
       "Yards Per Touch: " ++ sc p ["yds_per_touch"] "0",
       "Targets: " ++ sc p ["targets"] "0" ++ " (" ++ sc p ["targets_per_game"] "0" ++ " per game)"]

/-- The MLB stat block (pitcher shape when `era` is truthy). -/
def mlbStatLines (p : PlayerStats) : String :=
  if statTruthyOpt (statLookup p.stats "era") then
    String.intercalate "\n"
      ["ERA: " ++ sc p ["era"] "0.00",
       "Record: " ++ sc p ["w"] "0" ++ "-" ++ sc p ["l"] "0",
       "Strikeouts: " ++ sc p ["so"] "0" ++ " (" ++ sc p ["so_per_9"] "0" ++ " K/9)",
       "WHIP: " ++ sc p ["whip"] "0.00",
       "Innings: " ++ sc p ["ip"] "0" ++ " (" ++ sc p ["ip_per_start"] "0" ++ " per start)",
       "Walks: " ++ sc p ["bb"] "0" ++ " (" ++ sc p ["bb_per_9"] "0" ++ " BB/9)",
       "Hits Allowed: " ++ sc p ["h"] "0" ++ " (" ++ sc p ["h_per_9"] "0" ++ " H/9)",
       "Quality Starts: " ++ sc p ["qs"] "0" ++ " (" ++ sc p ["qs_pct"] "0" ++ "%)"]
  else
    String.intercalate "\n"
      ["Batting: " ++ sc p ["avg"] ".000" ++ " AVG/" ++ sc p ["obp"] ".000" ++ " OBP/"
         ++ sc p ["slg"] ".000" ++ " SLG",
       "Home Runs: " ++ sc p ["hr"] "0" ++ " (" ++ sc p ["hr_per_game"] "0" ++ " per game)",
       "RBI: " ++ sc p ["rbi"] "0" ++ " (" ++ sc p ["rbi_per_game"] "0" ++ " per game)",
       "Hits/AB: " ++ sc p ["h"] "0" ++ "/" ++ sc p ["ab"] "0" ++ " (" ++ sc p ["hits_per_game"] "0" ++ " per game)",
       "Runs: " ++ sc p ["r"] "0" ++ " (" ++ sc p ["runs_per_game"] "0" ++ " per game)",
       "Walks: " ++ sc p ["bb"] "0" ++ " (" ++ sc p ["bb_per_game"] "0" ++ " per game)",
       "Strikeouts: " ++ sc p ["so"] "0" ++ " (" ++ sc p ["so_per_game"] "0" ++ " per game)",
       "Extra Base Hits: " ++ sc p ["xbh"] "0" ++ " (" ++ sc p ["xbh_per_game"] "0" ++ " per game)"]

/-- The NHL stat block. -/
def nhlStatLines (p : PlayerStats) : String :=
  String.intercalate "\n"
    ["Goals: " ++ sc p ["g"] "0" ++ " (" ++ sc p ["goals_per_game"] "0" ++ " per game)",
     "Assists: " ++ sc p ["a"] "0" ++ " (" ++ sc p ["assists_per_game"] "0" ++ " per game)",
     "Points: " ++ sc p ["pts"] "0" ++ " (" ++ sc p ["points_per_game"] "0" ++ " per game)",
     "Plus/Minus: " ++ sc p ["plus_minus"] "0",
     "Shots: " ++ sc p ["shots"] "0" ++ " (" ++ sc p ["shots_per_game"] "0" ++ " per game)",
     "Shot %: " ++ sc p ["shot_pct"] "0" ++ "%",
     "Time on Ice: " ++ sc p ["toi_per_game"] "0" ++ " per game",
     "Power Play Points: " ++ sc p ["pp_points"] "0" ++ " (" ++ sc p ["pp_points_per_game"] "0" ++ " per game)"]

/-- The `switch (sport)` of the named-player sub-case (`default`: dump
every entry of the stats record). -/
def statLinesFor (sport : String) (p : PlayerStats) : String :=
  if sport == "nba" then nbaStatLines p
  else if sport == "nfl" then nflStatLines p
  else if sport == "mlb" then mlbStatLines p
  else if sport == "nhl" then nhlStatLines p
  else
    String.intercalate "\n" (p.stats.map (fun kv => kv.1 ++ ": " ++ statShow kv.2))

/-- `getMainStat` of the top-performers sub-case. -/
def getMainStat (sport : String) (p : PlayerStats) : ℚ :=
  if sport == "nba" then numChain p.stats ["pts", "points"]
  else if sport == "nfl" then numChain p.stats ["td", "touchdowns"]
  else if sport == "mlb" then
    match statLookup p.stats "avg" with
    | some (.num q) => q
    | some (.str s) => (parseFloatQ s).getD 0
    | none => 0
  else if sport == "nhl" then numChain p.stats ["goals"]
  else 0

/-- The primary-metric key displayed for each top performer. -/
def mainStatKey (sport : String) : String :=
  if sport == "nba" then "pts"
  else if sport == "nfl" then "td"
  else if sport == "mlb" then "avg"
  else if sport == "nhl" then "goals"
  else "points"

/-- The top-performers rendering: stable sort descending by
`getMainStat`, top 5, one line per player
(`${stats[mainStat] || 0}` renders a falsy value as `0`). -/
def topPerformers (sport : String) (stats : List PlayerStats) : String :=
  let sortedStats := List.insertionSort
    (fun a b => getMainStat sport b ≤ getMainStat sport a) stats
  let top5 := sortedStats.take 5
  let key := mainStatKey sport
  let statLines := String.intercalate "\n" (top5.map (fun p =>
    let v := match statLookup p.stats key with
      | some w => if statTruthy w then statShow w else "0"
      | none => "0"
    p.name ++ " (" ++ p.team ++ "): " ++ v ++ " " ++ key))
  "Yo degen! Here are the top performers in " ++ upperStr sport
    ++ " this season:\n\n" ++ statLines
    ++ "\n\n🔥 These players are on fire! Want to know more about any of them? 💪"

/-- The player-stats category body after a successful fetch: named
player first (when group 2 matched and some player's name contains it),
then top performers (when the `best` pattern matched and stats are
non-empty), else the not-found message. -/
def playerStatsBody (lowerInput : String) (sport : String) (stats : List PlayerStats) : String :=
  let rest :=
    if bestTest lowerInput then
      if stats.length > 0 then some (topPerformers sport stats) else none
    else none
  let named :=
    match specificMatch lowerInput with
    | some raw =>
      let playerName := String.mk (trimChars raw.data)
      let playerStats := stats.filter (fun p =>
        containsSub (lowerStr p.name) (lowerStr playerName))
      match playerStats with
      | p :: _ =>
        some ("Yo degen! Here are " ++ p.name ++ "'s stats this season:\n\n"
          ++ statLinesFor sport p
          ++ "\n\n💥 Looking fire! Want to know about any other players? 🔥")
      | [] => none
    | none => none
  match named with
  | some r => r
  | none =>
    match rest with
    | some r => r
    | none =>
      "I couldn't find any player stats at the moment. Try asking about specific players or check back later! 🎯"

/-- The whole player-stats category: infer the sport, fetch the stats,
dispatch to the sub-cases; the surrounding `try`/`catch` converts any
fetch failure into the transient-trouble text. -/
def playerStatsResponse (lowerInput : String) (env : Env) : String :=
  let sport := detectSport lowerInput
  match getPlayerStats (env.statsOracle sport) with
  | .error _ =>
    "Yo degen! I'm having trouble accessing the latest player stats right now. Try again in a moment! 🎯"
  | .ok stats => playerStatsBody lowerInput sport stats

/-- The `reduce` of the all-games category: group the formatted lines by
sport, first-seen sport order (JS object key insertion order). -/
def groupBySport (games : List GameData) : List (String × List String) :=
  games.foldl (fun acc g =>
    let line := formatGameLine g
    if acc.any (fun p => p.1 == g.sport) then
      acc.map (fun p => if p.1 == g.sport then (p.1, p.2 ++ [line]) else p)
    else acc ++ [(g.sport, [line])]) []

/-- The generic aggregate-games category: fetch everything, group by
sport, render one block per sport; empty and failing fetches become
their messages (the `catch` is this category's own). -/
def allGamesResponse (env : Env) : String :=
  match (getTodaysGames env.now env.cache env.gamesOracle).1 with
  | .error _ =>
    "Yo degen! I'm having trouble accessing the latest sports data. Try asking about a specific sport like 'What NBA games are on tonight?' 🎯"
  | .ok allGames =>
    if allGames.length == 0 then
      "I couldn't find any games scheduled right now. Try asking about a specific sport like 'What NBA games are on tonight?'"
    else
      "Yo degen! Here's all the action we've got today! 🔥\n\n"
        ++ String.intercalate "\n\n" ((groupBySport allGames).map (fun p =>
             upperStr p.1 ++ " Games:\n" ++ String.intercalate "\n" p.2))
        ++ "\n\nWhich games are you eyeing? Let me know and I'll give you my best picks! 💰"

/-- The `sportMatches` table: explicit league regexes, in declaration
order. -/
def sportMatchesList : List (String × List String) :=
  [("nfl", ["nfl", "national football league"]),
   ("nba", ["nba", "national basketball association"]),
   ("mlb", ["mlb", "major league baseball"]),
   ("nhl", ["nhl", "national hockey league", "hockey"]),
   ("ncaaf", ["ncaaf", "college football", "ncaa football"]),
   ("ncaab", ["ncaab", "college basketball", "ncaa basketball"])]

/-- The `genericPatterns` table: alternation alternatives (plain
substring tests) and the three canned responses of each group. -/
def genericPatternsList : List (List String × List String) :=
  [(["parlay", "accumulator"],
    ["Want a fire parlay? Let me know which sports and I'll give you my best picks! 🔥",
     "Parlays are tough but I've got a system. Keep it to 2-3 legs max for best value. 💰",
     "I'm seeing some correlated parlay opportunities today. Want my picks? 🎯"]),
   (["over", "under"],
    ["Sharp money loves the unders! Let me know which game you're looking at. 🎯",
     "Totals are my specialty. I analyze pace stats, weather, everything! Want my picks? 💰",
     "Over/under betting is all about timing. I'm seeing some great spots today! 🎲"]),
   (["spread", "line"],
    ["Line shopping is key for spreads. I track movement across all books. Want my insights? 🎯",
     "Sharp money is moving some lines today. Let me know which games you're eyeing! 💰",
     "I've got some key injury info that's gonna move these spreads. Want the intel? 🔥"]),
   (["prop", "props"],
    ["Props are where the real money's at! Books struggle with these lines. Want my picks? 💰",
     "I've got some fire prop bets today! Let me know which sport you're betting! 🔥",
     "Player props are my bread and butter. Which sport should we attack today? 🎯"])]

/-- The fixed fallback capability message. -/
def fallbackMessage : String :=
  "Yo degen! I'm your go-to for all things sports betting! 🎯 I can hook you up with games and picks for NBA, NFL, MLB, NHL, NCAAF, or NCAAB. Just let me know which sport you want to crush today! 💰"

/-- `Eliza.respond`: the ordered rule cascade.  Category order as in the
source: player stats; the generic sport names `hockey` and `baseball`;
football and basketball disambiguation; explicit league mentions; the
generic aggregate-games query; the betting-term templates (random pick
modelled by `rand mod 3`); the fallback. -/
def respond (input : String) (env : Env) : Except String String :=
  let lowerInput := lowerStr input
  if statsTest lowerInput || bestTest lowerInput || (specificMatch lowerInput).isSome then
    .ok (playerStatsResponse lowerInput env)
  else if containsSub lowerInput "hockey" then
    .ok (handleSportResponse "nhl" env)
  else if containsSub lowerInput "baseball" then
    .ok (handleSportResponse "mlb" env)
  else if wordTest ["football"] lowerInput then
    if wordTest ["college", "ncaa", "ncaaf"] lowerInput then
      .ok (handleSportResponse "ncaaf" env)
    else if wordTest ["nfl", "pro", "professional"] lowerInput then
      .ok (handleSportResponse "nfl" env)
    else
      .ok "Are you interested in NFL or College Football games? Let me know which one and I'll hook you up with the latest odds! 🏈"
  else if wordTest ["basketball"] lowerInput then
    if wordTest ["college", "ncaa", "ncaab"] lowerInput then
      .ok (handleSportResponse "ncaab" env)
    else if wordTest ["nba", "pro", "professional"] lowerInput then
      .ok (handleSportResponse "nba" env)
    else
      .ok "Are you looking for NBA or College Basketball games? Let me know which one and I'll show you what's available! 🏀"
  else
    match sportMatchesList.find? (fun p => wordTest p.2 lowerInput) with
    | some p => .ok (handleSportResponse p.1 env)
    | none =>
      if containsSub lowerInput "game" || containsSub lowerInput "play"
          || containsSub lowerInput "bet" || containsSub lowerInput "odds" then
        .ok (allGamesResponse env)
      else
        match genericPatternsList.find? (fun p =>
            p.1.any (fun alt => containsSub lowerInput alt)) with
        | some p => .ok (p.2.getD (env.rand % p.2.length) "")
        | none => .ok fallbackMessage

/-! ## Concrete fixtures used by witnesses and counterexamples -/

/-- A well-formed NBA game record. -/
def gNba : GameData := ⟨"nba", ["Hawks", "Bulls"], some "7:00 PM", none⟩

/-- A second, distinct NBA game record. -/
def gNba2 : GameData := ⟨"nba", ["Knicks", "Heat"], some "8:00 PM", none⟩

/-- A well-formed NFL game record. -/
def gNfl : GameData := ⟨"nfl", ["Bears", "Lions"], some "1:00 PM", none⟩

/-- An oracle whose every fetch succeeds with the given games payload. -/
def oracleOf (l : List GameData) : Nat → FetchOutcome GameData :=
  fun _ => .payload none (some l)

/-- An oracle whose every fetch rejects. -/
def failOracle : Nat → FetchOutcome GameData :=
  fun _ => .fetchError "network down"

end DG

namespace DG

/-! ## C2 — stale-cache fallback on exhausted retries -/

/-- C2.  When a `getGames` call misses the fresh cache and both fetch
attempts of the retry cycle fail, the call returns the sport's
previously cached games whenever at least one is cached (however stale),
and otherwise raises the last fetch error; the cache is untouched. -/
theorem getGames_stale_fallback (sport : String) (now : Nat) (c : Cache)
    (oracle : Nat → FetchOutcome GameData) (e0 e1 : String)
    (hmiss : ¬(0 < (cachedFor sport c).length ∧ now - c.lastUpdated < 300000))
    (h0 : attemptGames (oracle 0) = .error e0)
    (h1 : attemptGames (oracle 1) = .error e1) :
    (0 < (cachedFor sport c).length →
      getGames sport now c oracle = (.ok (cachedFor sport c), c)) ∧
    ((cachedFor sport c).length = 0 →
      getGames sport now c oracle = (.error e1, c)) := by
  have hloop : getGamesLoop sport now c (cachedFor sport c) oracle 0 2 =
      if (cachedFor sport c).length > 0 then (.ok (cachedFor sport c), c)
      else (.error e1, c) := by
    simp [getGamesLoop, h0, h1]
  have hgg : getGames sport now c oracle
      = getGamesLoop sport now c (cachedFor sport c) oracle 0 2 := by
    simp only [getGames]
    rw [if_neg hmiss]
  constructor
  · intro hpos
    rw [hgg, hloop, if_pos hpos]
  · intro hzero
    rw [hgg, hloop, if_neg (by omega)]

/-- C2 witness: a non-empty NBA entry cached 10 minutes ago is returned
unchanged after both attempts of a refresh fail. -/
theorem getGames_stale_fallback_witness :
    getGames "nba" 600000 ⟨[gNba], 0⟩ failOracle = (.ok [gNba], ⟨[gNba], 0⟩) :=
  (getGames_stale_fallback "nba" 600000 ⟨[gNba], 0⟩ failOracle
    "network down" "network down" (by decide) rfl rfl).1 (by decide)

/-! ## C3 — the freshness boundary is judged against the single shared
timestamp, not per sport -/

/-- C3 counterexample.  NBA games are committed by a fetch at `t0 = 0`;
an NFL fetch then commits at `200000` and overwrites the shared
`lastUpdated`.  The NBA read at `t0 + 300000` is served from the cache
and issues no fetch — the fetch cycle at that moment would have returned
the oracle's new game and restamped the cache — refuting "every read at
`t ≥ t0 + 300000` issues a new fetch" with per-sport freshness. -/
theorem freshness_not_per_sport :
    getGames "nba" 0 ⟨[], 0⟩ (oracleOf [gNba]) = (.ok [gNba], ⟨[gNba], 0⟩) ∧
    getGames "nfl" 200000 ⟨[gNba], 0⟩ (oracleOf [gNfl])
      = (.ok [gNfl], ⟨[gNba, gNfl], 200000⟩) ∧
    getGames "nba" 300000 ⟨[gNba, gNfl], 200000⟩ (oracleOf [gNba2])
      = (.ok [gNba], ⟨[gNba, gNfl], 200000⟩) ∧
    getGamesLoop "nba" 300000 ⟨[gNba, gNfl], 200000⟩ [gNba] (oracleOf [gNba2]) 0 2
      = (.ok [gNba2], ⟨[gNfl, gNba2], 300000⟩) :=
  ⟨rfl, rfl, rfl, rfl⟩

/-- C3 amended.  Freshness is judged against the cache's one shared
`lastUpdated` stamp (set by the most recent non-empty commit of any
sport): a read for a sport with cached games at `now - lastUpdated <
300000` is served from the cache without fetching; otherwise the call
runs the fetch-with-retry cycle. -/
theorem getGames_freshness (sport : String) (now : Nat) (c : Cache)
    (oracle : Nat → FetchOutcome GameData) :
    (0 < (cachedFor sport c).length → now - c.lastUpdated < 300000 →
      getGames sport now c oracle = (.ok (cachedFor sport c), c)) ∧
    (300000 ≤ now - c.lastUpdated ∨ (cachedFor sport c).length = 0 →
      getGames sport now c oracle
        = getGamesLoop sport now c (cachedFor sport c) oracle 0 2) := by
  constructor
  · intro hpos hfresh
    simp only [getGames]
    rw [if_pos ⟨hpos, hfresh⟩]
  · intro hmiss
    simp only [getGames]
    rw [if_neg (by omega)]

/-- C3 witness: a read 100 000 ms after the stamp, with a cached NBA
game, is served from the cache even though the oracle would fail. -/
theorem getGames_freshness_witness :
    getGames "nba" 100000 ⟨[gNba], 0⟩ failOracle = (.ok [gNba], ⟨[gNba], 0⟩) :=
  (getGames_freshness "nba" 100000 ⟨[gNba], 0⟩ failOracle).1 (by decide) (by decide)

/-! ## C10 — the shared timestamp makes one sport's commit refresh
every sport's freshness window -/

/-- C10.  The cache carries one `lastUpdated` for all sports: a
`getGames` call for sport `s` that misses the cache and commits a
non-empty first-attempt result at time `t` stamps the shared timestamp
`t`, and afterwards a read for any sport `s'` with cached games at any
`u < t + 300000` is served from the cache without a fetch — regardless
of how long ago `s'` itself was last fetched (the prior cache `c` is
arbitrary). -/
theorem cache_shared_timestamp (s s' : String) (t u : Nat) (c : Cache)
    (oracle oracle' : Nat → FetchOutcome GameData) (raw : List GameData)
    (hmiss : ¬(0 < (cachedFor s c).length ∧ t - c.lastUpdated < 300000))
    (hok : attemptGames (oracle 0) = .ok raw)
    (hne : postProcess raw ≠ [])
    (hu : u < t + 300000)
    (hcached : 0 < (cachedFor s' ((getGames s t c oracle).2)).length) :
    (getGames s t c oracle).2.lastUpdated = t ∧
    getGames s' u ((getGames s t c oracle).2) oracle'
      = (.ok (cachedFor s' ((getGames s t c oracle).2)), (getGames s t c oracle).2) := by
  have hlen : 0 < (postProcess raw).length := List.length_pos.mpr hne
  have hgg : getGames s t c oracle
      = (.ok (postProcess raw), commitCache s t (postProcess raw) c) := by
    simp only [getGames]
    rw [if_neg hmiss]
    simp [getGamesLoop, hok, hlen]
  constructor
  · rw [hgg]
    rfl
  · have hts : ((getGames s t c oracle).2).lastUpdated = t := by
      rw [hgg]
      rfl
    generalize hC2 : (getGames s t c oracle).2 = c2 at hcached hts ⊢
    simp only [getGames]
    rw [if_pos ⟨hcached, by omega⟩]

/-- C10 witness: an NFL entry stamped at 0 counts as fresh at time
1 200 000 because an NBA commit restamped the shared timestamp at
1 000 000; the NFL read is served from the cache although its own data
is 1 200 000 ms old and the oracle would fail. -/
theorem cache_shared_timestamp_witness :
    getGames "nfl" 1200000 ((getGames "nba" 1000000 ⟨[gNfl], 0⟩ (oracleOf [gNba])).2) failOracle
      = (.ok (cachedFor "nfl" ((getGames "nba" 1000000 ⟨[gNfl], 0⟩ (oracleOf [gNba])).2)),
         (getGames "nba" 1000000 ⟨[gNfl], 0⟩ (oracleOf [gNba])).2) :=
  (cache_shared_timestamp "nba" "nfl" 1000000 1200000 ⟨[gNfl], 0⟩
    (oracleOf [gNba]) failOracle [gNba]
    (by decide) rfl (by decide) (by omega) (by decide)).2

/-! ## C6 — the cache commit's frame -/

/-- The filter pass keeps only members of its input. -/
theorem mem_of_mem_filterTimed {g : GameData} {l : List GameData}
    (h : g ∈ filterTimed l) : g ∈ l :=
  (List.mem_filter.mp h).1

/-- The dedup pass keeps only members of its input. -/
theorem mem_of_mem_dedupGames {g : GameData} {l : List GameData}
    (h : g ∈ dedupGames l) : g ∈ l := by
  obtain ⟨p, hp, hpg⟩ := List.mem_map.mp h
  have hpe : p ∈ l.enum := (List.mem_filter.mp hp).1
  obtain ⟨hlt, hx⟩ := List.mem_enum hpe
  subst hpg
  rw [hx]
  exact List.getElem_mem hlt

/-- The sort pass permutes its input. -/
theorem mem_sortGames_iff {g : GameData} {l : List GameData} :
    g ∈ sortGames l ↔ g ∈ l :=
  (List.perm_insertionSort _ l).mem_iff

/-- Every post-processed record comes from the raw fetch result. -/
theorem mem_of_mem_postProcess {g : GameData} {raw : List GameData}
    (h : g ∈ postProcess raw) : g ∈ raw :=
  mem_of_mem_filterTimed (mem_of_mem_dedupGames (mem_sortGames_iff.mp h))

/-- A commit for `sport` leaves exactly `games` behind that sport's key. -/
theorem cachedFor_commit_self (sport : String) (now : Nat)
    (games : List GameData) (c : Cache)
    (hs : ∀ g ∈ games, g.sport = sport) :
    cachedFor sport (commitCache sport now games c) = games := by
  show ((c.data.filter _ ++ games).filter _) = games
  rw [List.filter_append]
  have h1 : (c.data.filter (fun g => g.sport != sport)).filter
      (fun g => g.sport == sport) = [] := by
    rw [List.filter_eq_nil_iff]
    intro a ha
    have := (List.mem_filter.mp ha).2
    simp only [bne_iff_ne, ne_eq] at this
    simp [this]
  have h2 : games.filter (fun g => g.sport == sport) = games :=
    List.filter_eq_self.mpr (fun a ha => by simp [hs a ha])
  rw [h1, h2, List.nil_append]

/-- A commit for `sport` preserves every other sport's cached games. -/
theorem cachedFor_commit_other (sport s' : String) (now : Nat)
    (games : List GameData) (c : Cache)
    (hs : ∀ g ∈ games, g.sport = sport) (hne : s' ≠ sport) :
    cachedFor s' (commitCache sport now games c) = cachedFor s' c := by
  show ((c.data.filter _ ++ games).filter _) = c.data.filter _
  rw [List.filter_append]
  have h2 : games.filter (fun g => g.sport == s') = [] := by
    rw [List.filter_eq_nil_iff]
    intro a ha
    simp [hs a ha, Ne.symm hne]
  rw [h2, List.append_nil, List.filter_comm]
  apply List.filter_eq_self.mpr
  intro a ha
  have ha' : a.sport = s' := by simpa using (List.mem_filter.mp ha).2
  simp [ha', hne]

/-- C6.  A successful fetch in `getGames` (first or second attempt)
updates the cache only when the post-processed result is non-empty; the
commit replaces exactly the games of the fetched sport (the records a
fetch for `sport` returns carry that sport's tag, as the API route sets
`sport: currentSport` on every scraped record) and preserves every other
sport's cached games; an empty post-processed result leaves the whole
cache unchanged. -/
theorem getGames_commit_frame (sport : String) (now : Nat) (c : Cache)
    (oracle : Nat → FetchOutcome GameData) (raw : List GameData) (k : Nat)
    (hmiss : ¬(0 < (cachedFor sport c).length ∧ now - c.lastUpdated < 300000))
    (hk : k < 2)
    (hok : attemptGames (oracle k) = .ok raw)
    (hprev : ∀ j, j < k → ∃ e, attemptGames (oracle j) = .error e)
    (hsport : ∀ g ∈ raw, g.sport = sport) :
    (postProcess raw ≠ [] →
      getGames sport now c oracle
        = (.ok (postProcess raw), commitCache sport now (postProcess raw) c) ∧
      cachedFor sport (commitCache sport now (postProcess raw) c) = postProcess raw ∧
      ∀ s', s' ≠ sport →
        cachedFor s' (commitCache sport now (postProcess raw) c) = cachedFor s' c) ∧
    (postProcess raw = [] → getGames sport now c oracle = (.ok [], c)) := by
  have hpp : ∀ g ∈ postProcess raw, g.sport = sport :=
    fun g hg => hsport g (mem_of_mem_postProcess hg)
  have hgg : getGames sport now c oracle
      = getGamesLoop sport now c (cachedFor sport c) oracle 0 2 := by
    simp only [getGames]
    rw [if_neg hmiss]
  constructor
  · intro hne
    have hlen : 0 < (postProcess raw).length := List.length_pos.mpr hne
    refine ⟨?_, cachedFor_commit_self sport now _ c hpp,
      fun s' h => cachedFor_commit_other sport s' now _ c hpp h⟩
    rw [hgg]
    interval_cases k
    · simp [getGamesLoop, hok, hlen]
    · obtain ⟨e, he⟩ := hprev 0 (by omega)
      simp [getGamesLoop, he, hok, hlen]
  · intro hnil
    rw [hgg]
    interval_cases k
    · simp [getGamesLoop, hok, hnil]
    · obtain ⟨e, he⟩ := hprev 0 (by omega)
      simp [getGamesLoop, he, hok, hnil]

/-- C6 witness: with another sport's entry cached, a first-attempt NBA
fetch commits the NBA result and leaves the NFL entry untouched. -/
theorem getGames_commit_frame_witness :
    getGames "nba" 0 ⟨[gNfl], 0⟩ (oracleOf [gNba])
      = (.ok (postProcess [gNba]), commitCache "nba" 0 (postProcess [gNba]) ⟨[gNfl], 0⟩) ∧
    cachedFor "nfl" (commitCache "nba" 0 (postProcess [gNba]) ⟨[gNfl], 0⟩)
      = cachedFor "nfl" ⟨[gNfl], 0⟩ := by
  have h := (getGames_commit_frame "nba" 0 ⟨[gNfl], 0⟩ (oracleOf [gNba]) [gNba] 0
    (by decide) (by omega) rfl (fun j hj => absurd hj (Nat.not_lt_zero j))
    (by decide)).1 (by decide)
  exact ⟨h.1, h.2.2 "nfl" (by decide)⟩

/-! ## C1 — cross-sport aggregation of `getTodaysGames` -/

/-- The fan-out accumulators are exactly the per-sport outcomes:
`allGames` is the concatenation of the successful lists and `errors`
collects the failures, both in traversal order. -/
theorem collectSports_eq (now : Nat) (gso : String → Nat → FetchOutcome GameData) :
    ∀ (ss : List String) (c : Cache),
      (collectSports now gso ss c).1 = (okResults (perSportResults now gso ss c)).flatten ∧
      (collectSports now gso ss c).2.1 = errResults (perSportResults now gso ss c) := by
  intro ss
  induction ss with
  | nil => intro c; exact ⟨rfl, rfl⟩
  | cons s rest ih =>
    intro c
    simp only [collectSports, perSportResults]
    rcases hr : getGames s now c (gso s) with ⟨res, c1⟩
    rcases res with e | games
    · have := ih c1
      simp only [collectSports, okResults, errResults, List.filterMap_cons] at this ⊢
      rcases hrest : collectSports now gso rest c1 with ⟨gs, es, c2⟩
      rw [hrest] at this
      simp only at this
      simp [this.1, this.2, okResults, errResults]
    · have := ih c1
      simp only [collectSports, okResults, errResults, List.filterMap_cons] at this ⊢
      rcases hrest : collectSports now gso rest c1 with ⟨gs, es, c2⟩
      rw [hrest] at this
      simp only at this
      simp [this.1, this.2, okResults, errResults]

/-- C1.  `getTodaysGames` over the six sports: when at least one sport
yields games, the call returns the concatenation of all successful
per-sport results and raises no error; when no sport yields games and at
least one failed, it raises the first encountered failure; when no sport
yields games and none failed, it returns the empty list. -/
theorem getTodaysGames_aggregation (now : Nat) (c : Cache)
    (gso : String → Nat → FetchOutcome GameData) :
    ((okResults (perSportResults now gso allSports c)).flatten ≠ [] →
      (getTodaysGames now c gso).1
        = .ok ((okResults (perSportResults now gso allSports c)).flatten)) ∧
    (∀ e tl, (okResults (perSportResults now gso allSports c)).flatten = [] →
      errResults (perSportResults now gso allSports c) = e :: tl →
      (getTodaysGames now c gso).1 = .error e) ∧
    ((okResults (perSportResults now gso allSports c)).flatten = [] →
      errResults (perSportResults now gso allSports c) = [] →
      (getTodaysGames now c gso).1 = .ok []) := by
  obtain ⟨hall, herr⟩ := collectSports_eq now gso allSports c
  rcases hcs : collectSports now gso allSports c with ⟨allGames, errors, c1⟩
  rw [hcs] at hall herr
  simp only at hall herr
  refine ⟨?_, ?_, ?_⟩
  · intro hne
    have hlen : 0 < allGames.length := by
      rw [hall]
      exact List.length_pos.mpr hne
    simp only [getTodaysGames]
    rw [hcs]
    simp only [hlen, if_pos]
    rw [hall]
  · intro e tl hnil herrs
    have hlen : ¬ 0 < allGames.length := by
      rw [hall, hnil]
      simp
    simp only [getTodaysGames]
    rw [hcs]
    simp only [if_neg hlen]
    rw [herr, herrs]
  · intro hnil herrs
    have hlen : ¬ 0 < allGames.length := by
      rw [hall, hnil]
      simp
    simp only [getTodaysGames]
    rw [hcs]
    simp only [if_neg hlen]
    rw [herr, herrs]

/-- A fan-out oracle for the C1 witness: NFL and NBA succeed with one
game each, the other four sports fail. -/
def mixedOracle : String → Nat → FetchOutcome GameData :=
  fun s _ =>
    if s == "nfl" then .payload none (some [gNfl])
    else if s == "nba" then .payload none (some [gNba])
    else .fetchError "scrape failed"

/-- C1 witness: with two succeeding sports and four failing ones, the
fan-out returns the concatenation of the two successful lists and
raises no error. -/
theorem getTodaysGames_aggregation_witness :
    (getTodaysGames 0 ⟨[], 0⟩ mixedOracle).1 = .ok ((okResults (perSportResults 0 mixedOracle allSports ⟨[], 0⟩)).flatten) :=
  (getTodaysGames_aggregation 0 ⟨[], 0⟩ mixedOracle).1 (by decide)

/-! ## C4 — dedup keeps exactly the first record of each normalized
team set -/

/-- The normalized team pair of a record, as a set. -/
def teamKey (g : GameData) : Finset String :=
  (g.teams.map normalizeTeam).toFinset

/-- The records that are the first of their normalized team set, in
original order — the spec's description of the dedup step's output. -/
def firstOfTeams (l : List GameData) : List GameData :=
  (l.enum.filter (fun p =>
    (l.take p.1).all (fun g' => decide (teamKey g' ≠ teamKey p.2)))).map Prod.snd

/-- The code's size-and-membership check on the two `Set`s is exactly
equality of the normalized team sets. -/
theorem sameTeams_iff {a b : GameData} :
    sameTeams a b = true ↔ teamKey a = teamKey b := by
  unfold sameTeams teamSetList teamKey
  simp only [Bool.and_eq_true, beq_iff_eq, List.all_eq_true, decide_eq_true_eq]
  constructor
  · rintro ⟨hlen, hmem⟩
    apply Finset.eq_of_subset_of_card_le
    · intro t ht
      rw [List.mem_toFinset] at ht ⊢
      exact List.mem_dedup.mp (hmem t (List.mem_dedup.mpr ht))
    · rw [List.card_toFinset, List.card_toFinset]
      omega
  · intro heq
    constructor
    · rw [← List.card_toFinset, ← List.card_toFinset, heq]
    · intro t ht
      rw [List.mem_dedup] at ht ⊢
      have hf : t ∈ (List.map normalizeTeam a.teams).toFinset := List.mem_toFinset.mpr ht
      rw [heq] at hf
      exact List.mem_toFinset.mp hf

/-- `sameTeams` is reflexive (each record trivially equals its own set). -/
theorem sameTeams_refl (g : GameData) : sameTeams g g = true :=
  sameTeams_iff.mpr rfl

/-- C4.  The dedup step retains, for every normalized team set occurring
in the list, exactly the first record (in original order) carrying that
set, and drops every later record whose set already occurred; records
with distinct sets are all retained.  Stated as: the dedup filter equals
the first-of-each-team-set selection. -/
theorem dedup_keeps_first (l : List GameData) : dedupGames l = firstOfTeams l := by
  unfold dedupGames firstOfTeams
  congr 1
  apply List.filter_congr
  intro p hp
  obtain ⟨hlt, hx⟩ := List.mem_enum hp
  rw [Bool.eq_iff_iff, beq_iff_eq, List.all_eq_true,
    List.findIdx_eq (p := fun g => sameTeams p.2 g) hlt]
  simp only [decide_eq_true_eq]
  constructor
  · rintro ⟨-, hbefore⟩ g' hg' hkey
    obtain ⟨j, hj, hjg⟩ := List.mem_take_iff_getElem.mp hg'
    have hjlt : j < p.1 := lt_of_lt_of_le hj (Nat.min_le_left _ _)
    have hfalse := hbefore j hjlt
    rw [← hjg] at hkey
    have : sameTeams p.2 l[j] = true := sameTeams_iff.mpr hkey.symm
    rw [this] at hfalse
    exact Bool.noConfusion hfalse
  · intro hnot
    refine ⟨by rw [← hx]; exact sameTeams_refl p.2, ?_⟩
    intro j hj
    have hjl : j < l.length := lt_trans hj hlt
    have hmem : l[j] ∈ l.take p.1 :=
      List.mem_take_iff_getElem.mpr ⟨j, lt_min hj hjl, rfl⟩
    have hne := hnot l[j] hmem
    cases hst : sameTeams p.2 l[j] with
    | false => rfl
    | true => exact absurd (sameTeams_iff.mp hst).symm hne

/-! ## C5 — the sort step orders ascending by parsed time-of-day -/

/-- C5.  The sort pass permutes its input into ascending `sortKey`
order, where the key parses `"H:MM AM/PM"` as `hours*60 + minutes`,
plus 720 for a PM hour other than 12 and minus 720 for 12 AM; a missing
time is keyed as `"99:99 PM"`, i.e. `6759`, which exceeds the key of
every time whose parsed hour is at most 12 and minute at most 59; and
`["9:00 PM","7:30 AM","12:15 AM"]` sorts to
`["12:15 AM","7:30 AM","9:00 PM"]`. -/
theorem sort_by_time (l : List GameData) :
    (sortGames l).Perm l ∧
    List.Pairwise (fun a b => sortKey a ≤ sortKey b) (sortGames l) ∧
    (∀ g : GameData, g.time = none → sortKey g = convertTimeToMinutes "99:99 PM") ∧
    convertTimeToMinutes "99:99 PM" = 6759 ∧
    (∀ (s : String) (tp per hd md : List Char) (h m : Nat),
      splitChar ' ' s.data = [tp, per] →
      splitChar ':' tp = [hd, md] →
      digitsToNat hd = some h → digitsToNat md = some m →
      h ≤ 12 → m ≤ 59 →
      convertTimeToMinutes s < 6759) ∧
    sortGames [⟨"nba", ["A", "B"], some "9:00 PM", none⟩,
               ⟨"nba", ["C", "D"], some "7:30 AM", none⟩,
               ⟨"nba", ["E", "F"], some "12:15 AM", none⟩]
      = [⟨"nba", ["E", "F"], some "12:15 AM", none⟩,
         ⟨"nba", ["C", "D"], some "7:30 AM", none⟩,
         ⟨"nba", ["A", "B"], some "9:00 PM", none⟩] := by
  refine ⟨List.perm_insertionSort _ l, ?_, ?_, by decide, ?_, by decide⟩
  · haveI : IsTotal GameData (fun a b => sortKey a ≤ sortKey b) :=
      ⟨fun a b => le_total (sortKey a) (sortKey b)⟩
    haveI : IsTrans GameData (fun a b => sortKey a ≤ sortKey b) :=
      ⟨fun _ _ _ hab hbc => le_trans hab hbc⟩
    exact List.sorted_insertionSort _ l
  · intro g hg
    unfold sortKey
    rw [hg]
  · intro s tp per hd md h m hsp hcol hh hm hle hmle
    unfold convertTimeToMinutes
    rw [hsp]
    simp only [List.getD_cons_zero, List.getD_cons_succ]
    rw [hcol]
    simp only [List.getD_cons_zero, List.getD_cons_succ, hh, hm, Option.getD_some]
    split_ifs with h1 h2 h2 <;>
      · simp only [Bool.and_eq_true, bne_iff_ne, ne_eq, beq_iff_eq] at h1 h2
        omega

/-- C5 witness: the bound instantiated at the parse of `"9:00 PM"`. -/
theorem sort_by_time_witness : convertTimeToMinutes "9:00 PM" < 6759 :=
  (sort_by_time []).2.2.2.2.1 "9:00 PM" "9:00".data "PM".data
    ['9'] ['0', '0'] 9 0 rfl rfl rfl rfl (by omega) (by omega)

/-! ## C9 — the stats gateway is a single-attempt pass-through

`getPlayerStats` consumes exactly one fetch outcome and touches no
cache (its definition takes none and returns none): there is no retry
and no fallback.  The theorem characterizes when it raises and what it
returns. -/

/-- C9.  `getPlayerStats` succeeds exactly on a payload without a truthy
error indicator, returning its stats list (empty when the field is
absent); it raises on a rejected fetch (with that error), on a non-ok
response (with the status message) and on a payload carrying an error
indicator (with that indicator) — the last is a failure even when a
stats array is present, never an empty result. -/
theorem getPlayerStats_gateway :
    (∀ o : FetchOutcome PlayerStats,
      (∃ lst, getPlayerStats o = .ok lst) ↔
        ∃ err body, o = .payload err body ∧ errTruthy err = false) ∧
    (∀ err body, errTruthy err = false →
      getPlayerStats (.payload err body) = .ok (body.getD [])) ∧
    (∀ e body, e ≠ "" → getPlayerStats (.payload (some e) body) = .error e) ∧
    (∀ msg, getPlayerStats (.fetchError msg) = .error msg) ∧
    (∀ status statusText, getPlayerStats (.notOk status statusText)
      = .error ("Failed to fetch player stats: " ++ toString status ++ " " ++ statusText)) := by
  refine ⟨?_, ?_, ?_, fun _ => rfl, fun _ _ => rfl⟩
  · intro o
    constructor
    · rintro ⟨lst, hok⟩
      cases o with
      | fetchError m => exact absurd hok (by simp [getPlayerStats])
      | notOk st stx => exact absurd hok (by simp [getPlayerStats])
      | payload err body =>
        refine ⟨err, body, rfl, ?_⟩
        by_contra htr
        rw [Bool.not_eq_false] at htr
        rw [getPlayerStats, if_pos htr] at hok
        exact Except.noConfusion hok
    · rintro ⟨err, body, rfl, htr⟩
      exact ⟨body.getD [], by rw [getPlayerStats, if_neg (by rw [htr]; exact Bool.false_ne_true)]⟩
  · intro err body htr
    rw [getPlayerStats, if_neg (by rw [htr]; exact Bool.false_ne_true)]
  · intro e body he
    rw [getPlayerStats, if_pos (by simpa [errTruthy] using he)]
    rfl

/-- C9 witness: a payload tagged `error: "Internal server error"` is a
failure even though it also carries a stats array. -/
theorem getPlayerStats_gateway_witness :
    getPlayerStats (.payload (some "Internal server error")
        (some [⟨"LeBron James", "LAL", none, []⟩]))
      = .error "Internal server error" :=
  getPlayerStats_gateway.2.2.1 "Internal server error"
    (some [⟨"LeBron James", "LAL", none, []⟩]) (by decide)

/-! ## C7 — `respond` always terminates with text -/

/-- An environment in which every fetch of every operation rejects and
the cache is empty: the worst case for the error paths. -/
def failEnv : Env :=
  ⟨0, ⟨[], 0⟩, fun _ _ => .fetchError "network down",
   fun _ => .fetchError "network down", 0⟩

/-- C7.  `respond` never raises: for every input and every behavior of
the collaborators it returns `ok` with a text — every data-fetch failure
is caught inside its category — and, concretely, when every fetch fails:
a player-stat query, a per-sport query and an aggregate-games query each
yield their category's transient-trouble message. -/
theorem respond_never_raises :
    (∀ (input : String) (env : Env), (respond input env).isOk = true) ∧
    respond "what is lebron averaging" failEnv
      = .ok "Yo degen! I'm having trouble accessing the latest player stats right now. Try again in a moment! 🎯" ∧
    respond "nba" failEnv
      = .ok "Yo degen! I'm having trouble accessing the latest NBA data right now. Try again in a moment or check out another sport! 🎯" ∧
    respond "any games today" failEnv
      = .ok "Yo degen! I'm having trouble accessing the latest sports data. Try asking about a specific sport like 'What NBA games are on tonight?' 🎯" := by
  refine ⟨?_, rfl, rfl, rfl⟩
  intro input env
  unfold respond
  dsimp only
  repeat' split
  all_goals rfl

/-! ## C8 — category priority: player stats beat the explicit league -/

/-- C8.  On `"what is LeBron averaging in the NBA"` the player-stat
category (category 1) matches and produces the whole response — for
every collaborator behavior the classifier's value is the category-1
handler's value, so the explicit-league category is never consulted —
although the league pattern for `nba` does match the input. -/
theorem classifier_priority :
    (∀ env : Env, respond "what is LeBron averaging in the NBA" env
      = .ok (playerStatsResponse "what is lebron averaging in the nba" env)) ∧
    wordTest ["nba", "national basketball association"]
      "what is lebron averaging in the nba" = true := by
  exact ⟨fun env => rfl, by decide⟩

end DG
